import Mathlib

/-!
# TaskGenius client resilience layer — formal model

Shallow embedding of `src/frontend/libs/api.ts`: the field extractor
(`processTaskDescription`), the error classifier (`handleApiError`), the
demo-mode state (`setDemoMode` over the module-level variables), the local
task store (`mockTasks` / `nextId`) and the gateway operations of the
exported `api` object.

Modelling conventions:
* JavaScript `Date` values are epoch milliseconds (`Int`); the civil
  calendar is proleptic Gregorian in UTC, so `setDate(getDate()+k)` adds
  exactly `k * 86400000` ms and `getDay` is `(days + 4) mod 7`
  (1970-01-01 was a Thursday).  `setMonth(getMonth()+1)` is modelled with
  explicit civil-date conversion (day-of-month overflow rolls forward,
  as in JavaScript).
* ISO timestamp strings are represented by the epoch milliseconds they
  encode (`toISOString` is injective and order preserving).
* A remote call is an oracle value: `Outcome α` is either the parsed
  success payload or the caught JavaScript error (a thrown network error,
  an abort, or the `HTTP <status>` error the code itself throws on a
  non-2xx response).  Each gateway function also reports whether the
  remote call was attempted at all.
* `navigator.onLine` is an explicit boolean argument (`online`).
-/

namespace TaskGenius

/-- One JavaScript day in milliseconds. -/
def dayMs : Int := 86400000

/-- JavaScript `Date.prototype.getDay`: 0 = Sunday … 6 = Saturday
(the Unix epoch fell on a Thursday, day number 4). -/
def jsGetDay (t : Int) : Int := (t / dayMs + 4) % 7

/-- `d.setDate(d.getDate() + k)` in UTC: adds exactly `k` days. -/
def jsAddDays (t : Int) (k : Int) : Int := t + k * dayMs

/-- Civil-from-days (proleptic Gregorian, Hinnant's algorithm):
day count since 1970-01-01 to `(year, month 1-12, day 1-31)`. -/
def civilFromDays (z0 : Int) : Int × Int × Int :=
  let z := z0 + 719468
  let era := z / 146097
  let doe := z - era * 146097
  let yoe := (doe - doe / 1460 + doe / 36524 - doe / 146096) / 365
  let y := yoe + era * 400
  let doy := doe - (365 * yoe + yoe / 4 - yoe / 100)
  let mp := (5 * doy + 2) / 153
  let d := doy - (153 * mp + 2) / 5 + 1
  let m := mp + (if mp < 10 then 3 else -9)
  (y + (if m ≤ 2 then 1 else 0), m, d)

/-- Days-from-civil (Hinnant's algorithm), inverse direction.  The
day-of-month argument may exceed the month length; the excess rolls into
the following month, exactly as JavaScript `Date` field setters do. -/
def daysFromCivil (y0 m d : Int) : Int :=
  let y := y0 - (if m ≤ 2 then 1 else 0)
  let era := y / 400
  let yoe := y - era * 400
  let doy := (153 * (m + (if m > 2 then -3 else 9)) + 2) / 5 + d - 1
  let doe := yoe * 365 + yoe / 4 - yoe / 100 + doy
  era * 146097 + doe - 719468

/-- `d.setMonth(d.getMonth() + 1)` in UTC: same day-of-month and
time-of-day, month incremented (rolling the year after December). -/
def jsAddMonth (t : Int) : Int :=
  let z := t / dayMs
  let c := civilFromDays z
  let y := c.1
  let m := c.2.1
  let d := c.2.2
  let y2 := if m = 12 then y + 1 else y
  let m2 := if m = 12 then 1 else m + 1
  daysFromCivil y2 m2 d * dayMs + t % dayMs

/-- JavaScript `String.prototype.toLowerCase` (ASCII range; the
keywords the code matches are all ASCII). -/
def lowerStr (s : String) : String := ⟨s.toList.map Char.toLower⟩

/-- Whether `needle` occurs as a contiguous run inside `hay`. -/
def containsCL (needle : List Char) : List Char → Bool
  | [] => needle.isEmpty
  | hd :: tl => needle.isPrefixOf (hd :: tl) || containsCL needle tl

/-- JavaScript `haystack.includes(needle)`: substring containment. -/
def jsIncludes (hay needle : String) : Bool :=
  containsCL needle.toList hay.toList

/-- JavaScript `String.prototype.trim` (strips leading and trailing
whitespace; ASCII whitespace suffices for the material here). -/
def jsTrim (s : String) : String :=
  ⟨((s.toList.dropWhile Char.isWhitespace).reverse.dropWhile
      Char.isWhitespace).reverse⟩

/-- JavaScript `s.substring(0, n)`: the first `n` characters. -/
def jsTake (s : String) (n : Nat) : String := ⟨s.toList.take n⟩

/-- Result of the field extractor: the `Partial<Task>` the code builds. -/
structure Extracted where
  title : String
  label : String
  due_date : Option Int
  deriving Repr, DecidableEq

/-- `description.split(/[.!?]/)[0]`: the prefix before the first `.`,
`!` or `?` (the whole string when none occurs). -/
def firstSegment (s : String) : String :=
  ⟨s.toList.takeWhile (fun c => !(c = '.' || c = '!' || c = '?'))⟩

/-- The `work` keyword disjunction of `processTaskDescription`. -/
def workMatch (lowerDesc : String) : Bool :=
  jsIncludes lowerDesc "work" || jsIncludes lowerDesc "meeting" ||
  jsIncludes lowerDesc "report" || jsIncludes lowerDesc "project" ||
  jsIncludes lowerDesc "client" || jsIncludes lowerDesc "presentation"

/-- The `shopping` keyword disjunction of `processTaskDescription`. -/
def shopMatch (lowerDesc : String) : Bool :=
  jsIncludes lowerDesc "buy" || jsIncludes lowerDesc "shop" ||
  jsIncludes lowerDesc "grocery" || jsIncludes lowerDesc "purchase" ||
  jsIncludes lowerDesc "store"

/-- The `health` keyword disjunction of `processTaskDescription`. -/
def healthMatch (lowerDesc : String) : Bool :=
  jsIncludes lowerDesc "doctor" || jsIncludes lowerDesc "dentist" ||
  jsIncludes lowerDesc "health" || jsIncludes lowerDesc "appointment" ||
  jsIncludes lowerDesc "medical" || jsIncludes lowerDesc "hospital"

/-- The `urgent` keyword disjunction of `processTaskDescription`. -/
def urgentMatch (lowerDesc : String) : Bool :=
  jsIncludes lowerDesc "urgent" || jsIncludes lowerDesc "asap" ||
  jsIncludes lowerDesc "immediately" || jsIncludes lowerDesc "critical" ||
  jsIncludes lowerDesc "emergency"

/-- The category chosen by `processTaskDescription`'s keyword chain,
operating on the lowercased description. -/
def extractLabel (lowerDesc : String) : String :=
  if workMatch lowerDesc then "work"
  else if shopMatch lowerDesc then "shopping"
  else if healthMatch lowerDesc then "health"
  else if urgentMatch lowerDesc then "urgent"
  else "personal"

/-- The due date chosen by `processTaskDescription`'s keyword chain
(source order: tomorrow, next week, friday, next month, monday). -/
def extractDueDate (lowerDesc : String) (now : Int) : Option Int :=
  if jsIncludes lowerDesc "tomorrow" then
    some (jsAddDays now 1)
  else if jsIncludes lowerDesc "next week" then
    some (jsAddDays now 7)
  else if jsIncludes lowerDesc "friday" then
    let daysUntilFriday :=
      if (5 - jsGetDay now + 7) % 7 = 0 then 7 else (5 - jsGetDay now + 7) % 7
    some (jsAddDays now daysUntilFriday)
  else if jsIncludes lowerDesc "next month" then
    some (jsAddMonth now)
  else if jsIncludes lowerDesc "monday" then
    let daysUntilMonday :=
      if (1 - jsGetDay now + 7) % 7 = 0 then 7 else (1 - jsGetDay now + 7) % 7
    some (jsAddDays now daysUntilMonday)
  else
    none

/-- Due-date resolution in the order the specification's claim lists the
rules (tomorrow, next week, next month, friday, monday).  This follows
the claim's wording, not the source, and exists to be compared with
`extractDueDate`, whose source order is tomorrow, next week, friday,
next month, monday. -/
def extractDueDateClaimOrder (lowerDesc : String) (now : Int) : Option Int :=
  if jsIncludes lowerDesc "tomorrow" then
    some (jsAddDays now 1)
  else if jsIncludes lowerDesc "next week" then
    some (jsAddDays now 7)
  else if jsIncludes lowerDesc "next month" then
    some (jsAddMonth now)
  else if jsIncludes lowerDesc "friday" then
    let daysUntilFriday :=
      if (5 - jsGetDay now + 7) % 7 = 0 then 7 else (5 - jsGetDay now + 7) % 7
    some (jsAddDays now daysUntilFriday)
  else if jsIncludes lowerDesc "monday" then
    let daysUntilMonday :=
      if (1 - jsGetDay now + 7) % 7 = 0 then 7 else (1 - jsGetDay now + 7) % 7
    some (jsAddDays now daysUntilMonday)
  else
    none

/-- `processTaskDescription(description)` evaluated with current time
`now`: derived title, category label and optional due date. -/
def processTaskDescription (description : String) (now : Int) : Extracted :=
  let lowerDesc := lowerStr description
  let title0 := jsTrim (jsTake (firstSegment description) 50)
  let title := if title0 = "" then jsTrim (jsTake description 50) else title0
  { title := title
    label := extractLabel lowerDesc
    due_date := extractDueDate lowerDesc now }

/-- A task record (`interface Task`); ISO timestamp strings are carried
as the epoch milliseconds they encode. -/
structure Task where
  id : Nat
  title : String
  description : String
  label : String
  due_date : Option Int
  created_at : Int
  updated_at : Int
  deriving Repr, DecidableEq

/-- A caught JavaScript error as observed by `handleApiError`:
`message` (empty when the value has none), `name`, and the optional
`status` field some error objects carry. -/
structure JsError where
  message : String
  name : String
  status : Option Nat
  deriving Repr, DecidableEq

/-- The module-level mutable state of `api.ts`: the `mockTasks` array,
the `nextId` counter and the demo-mode flags. -/
structure ApiState where
  mockTasks : List Task
  nextId : Nat
  isUsingMockData : Bool
  isDemoMode : Bool
  demoModeReason : String
  deriving Repr, DecidableEq

/-- `setDemoMode(enabled, reason)`. -/
def setDemoMode (s : ApiState) (enabled : Bool) (reason : String) : ApiState :=
  { s with isDemoMode := enabled, demoModeReason := reason,
           isUsingMockData := enabled }

/-- Branch 1 of `handleApiError`:
`statusCode === 422 || errorMessage.includes("422") || error?.status === 422`. -/
def cond422 (e : JsError) (statusCode : Option Nat) : Bool :=
  statusCode == some 422 || jsIncludes e.message "422" || e.status == some 422

/-- Branch 2 of `handleApiError`: the network-failure signatures
(including `!navigator.onLine`, passed here as `online`). -/
def condNetwork (e : JsError) (online : Bool) : Bool :=
  jsIncludes e.message "Failed to fetch" ||
  jsIncludes e.message "NetworkError" ||
  jsIncludes e.message "TypeError: fetch" ||
  jsIncludes e.message "CORS" ||
  e.name == "AbortError" ||
  e.name == "TypeError" ||
  jsIncludes e.message "ERR_NETWORK" ||
  jsIncludes e.message "ERR_INTERNET_DISCONNECTED" ||
  jsIncludes e.message "net::" ||
  !online

/-- Branch 3 of `handleApiError`:
`errorMessage.includes("HTTP") && (includes("500") || includes("503"))`. -/
def condServer (e : JsError) : Bool :=
  jsIncludes e.message "HTTP" &&
    (jsIncludes e.message "500" || jsIncludes e.message "503")

/-- The reason string selected by `handleApiError`'s branch chain,
first match wins. -/
def classifyReason (e : JsError) (statusCode : Option Nat) (online : Bool) :
    String :=
  if cond422 e statusCode then "AI processing temporarily unavailable (422 error)"
  else if condNetwork e online then "Backend server connection failed"
  else if condServer e then "Backend server error"
  else "API temporarily unavailable"

/-- `handleApiError(error, operation, statusCode?)`.  In the source every
branch calls `setDemoMode(true, reason)` and returns `true`; factoring the
reason selection into `classifyReason` is semantics preserving. -/
def handleApiError (s : ApiState) (e : JsError) (statusCode : Option Nat)
    (online : Bool) : Bool × ApiState :=
  (true, setDemoMode s true (classifyReason e statusCode online))

/-- The outcome of an attempted remote call: the parsed success payload,
or the caught error (a thrown network/abort error, or the
`HTTP <status>` error the code itself throws on a non-2xx response). -/
inductive Outcome (α : Type) where
  | ok (data : α)
  | err (e : JsError)
  deriving Repr, DecidableEq

/-- The outcome of the `checkHealth` fetch: a response with its `ok`
flag, or a thrown error. -/
inductive HealthOutcome where
  | ok (respOk : Bool)
  | threw (e : JsError)
  deriving Repr, DecidableEq

/-- Response shape of the list endpoint and of `getTasks`. -/
structure TaskListResponse where
  tasks : List Task
  total : Nat
  skip : Nat
  limit : Nat
  deriving Repr, DecidableEq

/-- Body of `POST /api/v1/tasks/summary` (ISO strings as epoch ms). -/
structure SummaryRequest where
  start_date : Int
  end_date : Int
  deriving Repr, DecidableEq

/-- Response shape of the summary endpoint and of `generateSummary`. -/
structure SummaryResponse where
  summary : String
  start_date : Int
  end_date : Int
  task_count : Nat
  deriving Repr, DecidableEq

/-- The local branch of `getTasks`: filter `mockTasks` by label (when the
label is truthy and not `"all"`), sort by `created_at` descending
(JavaScript comparator `b.created_at - a.created_at`, stable), and report
`total` as the filtered length with hard-coded `skip = 0`, `limit = 50`. -/
def localListResult (s : ApiState) (label : Option String) :
    TaskListResponse :=
  let filteredTasks :=
    match label with
    | some l =>
        if l != "" && l != "all" then
          s.mockTasks.filter (fun (t : Task) => t.label == l)
        else s.mockTasks
    | none => s.mockTasks
  { tasks := filteredTasks.mergeSort
      (fun a b => decide (b.created_at ≤ a.created_at))
    total := filteredTasks.length
    skip := 0
    limit := 50 }

/-- Replace the first task with the given id (the source's
`findIndex` + index assignment), `none` when no task matches. -/
def updateFirstTask (l : List Task) (id : Nat) (f : Task → Task) :
    Option (List Task) :=
  match l with
  | [] => none
  | t :: ts =>
      if t.id = id then some (f t :: ts)
      else match updateFirstTask ts id f with
           | some ts2 => some (t :: ts2)
           | none => none

/-- Remove the first task with the given id (the source's
`findIndex` + `splice`); unchanged when no task matches. -/
def eraseFirstTask (l : List Task) (id : Nat) : List Task :=
  match l with
  | [] => []
  | t :: ts => if t.id = id then ts else t :: eraseFirstTask ts id

/-- JavaScript `Array.from(new Set(xs))`: deduplicate keeping the first
occurrence of each element. -/
def dedupFirst (l : List String) : List String :=
  l.foldl (fun acc x => if x ∈ acc then acc else acc ++ [x]) []

/-- Lexicographic comparison on character codes (JavaScript default
string sort order for the label strings involved). -/
def lexLeCL : List Char → List Char → Bool
  | [], _ => true
  | _ :: _, [] => false
  | a :: as, b :: bs => if a = b then lexLeCL as bs else decide (a.toNat < b.toNat)

/-- JavaScript `labels.sort()`. -/
def sortStrings (l : List String) : List String :=
  l.mergeSort (fun a b => lexLeCL a.toList b.toList)

/-- JavaScript `String.prototype.toUpperCase` (ASCII range). -/
def upperStr (s : String) : String := ⟨s.toList.map Char.toUpper⟩

/-- The `labelCounts` accumulator of `generateSummary`'s fallback branch:
a JavaScript object used as an ordered map from label to count
(string keys keep insertion order). -/
def incrCount : List (String × Nat) → String → List (String × Nat)
  | [], l => [(l, 1)]
  | (k, n) :: rest, l =>
      if k = l then (k, n + 1) :: rest else (k, n) :: incrCount rest l

/-- Fold building `labelCounts` over the tasks in range. -/
def labelCounts (ts : List Task) : List (String × Nat) :=
  ts.foldl (fun acc task => incrCount acc task.label) []

/-- The fixed demo-mode summary template of `generateSummary`. -/
def demoSummaryText (taskCount : Nat) (counts : List (String × Nat)) :
    String :=
  "DEMO MODE ANALYSIS - AI TEMPORARILY UNAVAILABLE\n\n" ++
  "Task Analysis for Selected Period:\n" ++
  "• Total Tasks: " ++ toString taskCount ++ "\n" ++
  "• Categories: " ++ toString counts.length ++ "\n\n" ++
  "Distribution:\n" ++
  String.intercalate "\n"
    (counts.map (fun p =>
      "• " ++ upperStr p.1 ++ ": " ++ toString p.2 ++ " task" ++
      (if p.2 > 1 then "s" else ""))) ++
  "\n\n⚠️ NOTE: This is a simplified analysis generated in demo mode. \n" ++
  "Full AI-powered insights will be available when the backend service is restored.\n\n" ++
  "Basic Recommendations:\n" ++
  "• Review high-priority tasks first\n" ++
  "• Group similar tasks for efficiency\n" ++
  "• Set realistic deadlines for pending items\n" ++
  "• Regular task review helps maintain productivity\n\n" ++
  "Demo mode provides basic task management functionality while AI services are temporarily unavailable."

/-- `api.getTasks(label?, skip, limit)`.  Returns the response, the new
module state, and whether the remote call was attempted.  The `skip` and
`limit` arguments only feed the remote query string; neither local branch
reads them (they are underscore-named here because Lean flags them as
unused, which is precisely what the source does with them locally). -/
def api.getTasks (s : ApiState) (label : Option String) (_skip _limit : Nat)
    (o : Outcome TaskListResponse) (online : Bool) :
    TaskListResponse × ApiState × Bool :=
  if s.isDemoMode then
    (localListResult s label, s, false)
  else
    match o with
    | .ok data => (data, if s.isDemoMode then setDemoMode s false "" else s, true)
    | .err e =>
        let s2 := (handleApiError s e none online).2
        (localListResult s2 label, s2, true)

/-- `api.getTask(id)`.  The `Except` result carries the message of the
error the source throws (`"Task not found"` when the id is absent from
`mockTasks` on the fallback path). -/
def api.getTask (s : ApiState) (id : Nat) (o : Outcome Task)
    (online : Bool) : Except String Task × ApiState × Bool :=
  match o with
  | .ok t => (.ok t, s, true)
  | .err e =>
      let s2 := (handleApiError s e none online).2
      match s2.mockTasks.find? (fun t => t.id == id) with
      | some t => (.ok t, s2, true)
      | none => (.error "Task not found", s2, true)

/-- `api.createTask({description})` evaluated at current time `now`. -/
def api.createTask (s : ApiState) (descr : String) (now : Int)
    (o : Outcome Task) (online : Bool) :
    Except String Task × ApiState × Bool :=
  match o with
  | .ok t => (.ok t, s, true)
  | .err e =>
      let r := handleApiError s e none online
      let s2 := r.2
      if r.1 then
        let processed := processTaskDescription descr now
        let newTask : Task :=
          { id := s2.nextId
            title := if processed.title == "" then jsTake descr 50
                     else processed.title
            description := descr
            label := if processed.label == "" then "personal"
                     else processed.label
            due_date := processed.due_date
            created_at := now
            updated_at := now }
        (.ok newTask,
         { s2 with mockTasks := s2.mockTasks ++ [newTask],
                   nextId := s2.nextId + 1 }, true)
      else (.error e.message, s2, true)

/-- `api.updateTask(id, {description})` evaluated at current time `now`. -/
def api.updateTask (s : ApiState) (id : Nat) (descr : String) (now : Int)
    (o : Outcome Task) (online : Bool) :
    Except String Task × ApiState × Bool :=
  match o with
  | .ok t => (.ok t, s, true)
  | .err e =>
      let r := handleApiError s e none online
      let s2 := r.2
      if r.1 then
        let processed := processTaskDescription descr now
        let upd : Task → Task := fun old =>
          { old with
              title := if processed.title == "" then jsTake descr 50
                       else processed.title
              description := descr
              label := if processed.label == "" then old.label
                       else processed.label
              due_date := processed.due_date
              updated_at := now }
        match updateFirstTask s2.mockTasks id upd with
        | some tasks2 =>
            match (s2.mockTasks.find? (fun t => t.id == id)).map upd with
            | some newTask => (.ok newTask, { s2 with mockTasks := tasks2 }, true)
            | none => (.error "Task not found", s2, true)
        | none => (.error "Task not found", s2, true)
      else (.error e.message, s2, true)

/-- `api.deleteTask(id)`; the operation resolves with no payload, so only
the state and the attempted flag are returned. -/
def api.deleteTask (s : ApiState) (id : Nat) (o : Outcome Unit)
    (online : Bool) : ApiState × Bool :=
  match o with
  | .ok _ => (s, true)
  | .err e =>
      let s2 := (handleApiError s e none online).2
      ({ s2 with mockTasks := eraseFirstTask s2.mockTasks id }, true)

/-- `api.getLabels()`. -/
def api.getLabels (s : ApiState) (o : Outcome (List String))
    (online : Bool) : List String × ApiState × Bool :=
  match o with
  | .ok ls => (ls, s, true)
  | .err e =>
      let s2 := (handleApiError s e none online).2
      (sortStrings (dedupFirst (s2.mockTasks.map (fun t => t.label))), s2, true)

/-- `api.generateSummary({start_date, end_date})`. -/
def api.generateSummary (s : ApiState) (req : SummaryRequest)
    (o : Outcome SummaryResponse) (online : Bool) :
    SummaryResponse × ApiState × Bool :=
  match o with
  | .ok r => (r, s, true)
  | .err e =>
      let s2 := (handleApiError s e none online).2
      let tasksInRange := s2.mockTasks.filter (fun t =>
        decide (req.start_date ≤ t.created_at) &&
        decide (t.created_at ≤ req.end_date))
      ({ summary := demoSummaryText tasksInRange.length (labelCounts tasksInRange)
         start_date := req.start_date
         end_date := req.end_date
         task_count := tasksInRange.length }, s2, true)

/-- `api.checkHealth()`: returns `response.ok`, exiting demo mode when
the probe succeeds while the flag is set; a thrown error yields `false`
with the state untouched. -/
def api.checkHealth (s : ApiState) (o : HealthOutcome) : Bool × ApiState :=
  match o with
  | .ok respOk =>
      (respOk, if respOk && s.isDemoMode then setDemoMode s false "" else s)
  | .threw _ => (false, s)

/-- `api.exitDemoMode()`: unconditional manual clear. -/
def api.exitDemoMode (s : ApiState) : ApiState := setDemoMode s false ""

/-- One gateway call together with the remote outcome the environment
hands it. -/
inductive GatewayOp where
  | list (label : Option String) (skip limit : Nat) (o : Outcome TaskListResponse)
  | get (id : Nat) (o : Outcome Task)
  | create (descr : String) (o : Outcome Task)
  | update (id : Nat) (descr : String) (o : Outcome Task)
  | delete (id : Nat) (o : Outcome Unit)
  | labels (o : Outcome (List String))
  | summarize (req : SummaryRequest) (o : Outcome SummaryResponse)
  | health (o : HealthOutcome)
  | exitDemo

/-- The module state after one gateway call (`now` is the wall-clock
reading, `online` the `navigator.onLine` value during the call). -/
def step (s : ApiState) (op : GatewayOp) (now : Int) (online : Bool) :
    ApiState :=
  match op with
  | .list label skip limit o => (api.getTasks s label skip limit o online).2.1
  | .get id o => (api.getTask s id o online).2.1
  | .create d o => (api.createTask s d now o online).2.1
  | .update id d o => (api.updateTask s id d now o online).2.1
  | .delete id o => (api.deleteTask s id o online).1
  | .labels o => (api.getLabels s o online).2.1
  | .summarize req o => (api.generateSummary s req o online).2.1
  | .health o => (api.checkHealth s o).2
  | .exitDemo => api.exitDemoMode s

/-- The module state at load time `t0`: the single seeded sample task
(`created_at = updated_at = new Date()` at module initialization),
`nextId = 2`, demo mode off. -/
def initialState (t0 : Int) : ApiState :=
  { mockTasks := [
      { id := 1
        title := "Sample Task"
        description := "This is a sample task shown when API is unavailable"
        label := "personal"
        due_date := none
        created_at := t0
        updated_at := t0 }]
    nextId := 2
    isUsingMockData := false
    isDemoMode := false
    demoModeReason := "" }

/-- States reachable from module load by gateway calls; the integer is
the wall-clock reading, which never decreases between calls. -/
inductive Reachable : ApiState → Int → Prop where
  | init (t0 : Int) : Reachable (initialState t0) t0
  | next {s : ApiState} {t t2 : Int} (h : Reachable s t) (op : GatewayOp)
      (online : Bool) (hle : t ≤ t2) :
      Reachable (step s op t2 online) t2

/-- The gateway calls whose step can turn the fallback flag off: a
health probe whose response is `ok`, and the manual `exitDemoMode`. -/
def clearsFlag : GatewayOp → Bool
  | .health (.ok true) => true
  | .exitDemo => true
  | _ => false

/-- The label filter the local list branch applies to a stored task. -/
def labelFilter (label : Option String) (t : Task) : Bool :=
  match label with
  | some l => if l != "" && l != "all" then t.label == l else true
  | none => true

/-- Store invariants at wall-clock reading `t`: every stored task has
`created_at ≤ updated_at ≤ t` and an id below `nextId`, and the stored
ids are pairwise distinct. -/
def StoreInv (s : ApiState) (t : Int) : Prop :=
  (∀ task ∈ s.mockTasks,
     task.created_at ≤ task.updated_at ∧ task.updated_at ≤ t ∧
     task.id < s.nextId) ∧
  (s.mockTasks.map (fun task => task.id)).Nodup

/-! ## Basic lemmas about the state primitives -/

@[simp]
theorem setDemoMode_mockTasks (s : ApiState) (b : Bool) (r : String) :
    (setDemoMode s b r).mockTasks = s.mockTasks := rfl

@[simp]
theorem setDemoMode_nextId (s : ApiState) (b : Bool) (r : String) :
    (setDemoMode s b r).nextId = s.nextId := rfl

@[simp]
theorem setDemoMode_isDemoMode (s : ApiState) (b : Bool) (r : String) :
    (setDemoMode s b r).isDemoMode = b := rfl

@[simp]
theorem setDemoMode_demoModeReason (s : ApiState) (b : Bool) (r : String) :
    (setDemoMode s b r).demoModeReason = r := rfl

@[simp]
theorem handleApiError_fst (s : ApiState) (e : JsError) (st : Option Nat)
    (online : Bool) : (handleApiError s e st online).1 = true := rfl

@[simp]
theorem handleApiError_snd (s : ApiState) (e : JsError) (st : Option Nat)
    (online : Bool) :
    (handleApiError s e st online).2 =
      setDemoMode s true (classifyReason e st online) := rfl

theorem eraseFirstTask_of_forall_ne (l : List Task) (id : Nat)
    (h : ∀ task ∈ l, task.id ≠ id) : eraseFirstTask l id = l := by
  induction l with
  | nil => rfl
  | cons hd tl ih =>
      have hhd : hd.id ≠ id := h hd (List.mem_cons_self hd tl)
      simp only [eraseFirstTask, if_neg hhd]
      exact congrArg (hd :: ·) (ih fun task htask => h task (List.mem_cons_of_mem hd htask))

/-! ## Claim theorems -/

/-- C3: for every error input `handleApiError` reports
`shouldFallback = true` (and enters fallback), and selects the reason by
first match in the fixed order: the 422 signature gives exactly
"AI processing temporarily unavailable (422 error)"; otherwise the
network-failure signatures give "Backend server connection failed";
otherwise the HTTP 500/503 signature gives "Backend server error";
otherwise "API temporarily unavailable". -/
theorem classifier_order (s : ApiState) (e : JsError)
    (statusCode : Option Nat) (online : Bool) :
    (handleApiError s e statusCode online).1 = true ∧
    (handleApiError s e statusCode online).2.isDemoMode = true ∧
    (cond422 e statusCode = true →
       (handleApiError s e statusCode online).2.demoModeReason =
         "AI processing temporarily unavailable (422 error)") ∧
    (cond422 e statusCode = false → condNetwork e online = true →
       (handleApiError s e statusCode online).2.demoModeReason =
         "Backend server connection failed") ∧
    (cond422 e statusCode = false → condNetwork e online = false →
       condServer e = true →
       (handleApiError s e statusCode online).2.demoModeReason =
         "Backend server error") ∧
    (cond422 e statusCode = false → condNetwork e online = false →
       condServer e = false →
       (handleApiError s e statusCode online).2.demoModeReason =
         "API temporarily unavailable") := by
  refine ⟨rfl, rfl, ?_, ?_, ?_, ?_⟩ <;>
    · intros
      simp [handleApiError, classifyReason, *]

/-- Witness for `classifier_order`: each branch exercised on a concrete
error (a 422 message, an offline network failure, an HTTP 503, and an
unclassifiable error). -/
theorem classifier_order_witness :
    ((handleApiError (initialState 0)
        { message := "HTTP 422: AI processing failed", name := "Error",
          status := none } none true).2.demoModeReason =
      "AI processing temporarily unavailable (422 error)") ∧
    ((handleApiError (initialState 0)
        { message := "Failed to fetch", name := "TypeError",
          status := none } none true).2.demoModeReason =
      "Backend server connection failed") ∧
    ((handleApiError (initialState 0)
        { message := "HTTP 503: Service Unavailable", name := "Error",
          status := none } none true).2.demoModeReason =
      "Backend server error") ∧
    ((handleApiError (initialState 0)
        { message := "something odd", name := "Error",
          status := none } none true).2.demoModeReason =
      "API temporarily unavailable") := by
  refine ⟨?_, ?_, ?_, ?_⟩
  · exact (classifier_order (initialState 0) _ none true).2.2.1 (by decide)
  · exact (classifier_order (initialState 0) _ none true).2.2.2.1 (by decide)
      (by decide)
  · exact (classifier_order (initialState 0) _ none true).2.2.2.2.1 (by decide)
      (by decide) (by decide)
  · exact (classifier_order (initialState 0) _ none true).2.2.2.2.2 (by decide)
      (by decide) (by decide)

/-- C6: the extracted category is the first bucket in the fixed
precedence order work, shopping, health, urgent whose keyword list
matches the lowercased description, "personal" when none matches; in
particular a description matching both a work and a shopping keyword
resolves to "work". -/
theorem category_precedence (d : String) (t : Int) :
    ((processTaskDescription d t).label = extractLabel (lowerStr d)) ∧
    (workMatch (lowerStr d) = true → extractLabel (lowerStr d) = "work") ∧
    (workMatch (lowerStr d) = false → shopMatch (lowerStr d) = true →
       extractLabel (lowerStr d) = "shopping") ∧
    (workMatch (lowerStr d) = false → shopMatch (lowerStr d) = false →
       healthMatch (lowerStr d) = true →
       extractLabel (lowerStr d) = "health") ∧
    (workMatch (lowerStr d) = false → shopMatch (lowerStr d) = false →
       healthMatch (lowerStr d) = false → urgentMatch (lowerStr d) = true →
       extractLabel (lowerStr d) = "urgent") ∧
    (workMatch (lowerStr d) = false → shopMatch (lowerStr d) = false →
       healthMatch (lowerStr d) = false → urgentMatch (lowerStr d) = false →
       extractLabel (lowerStr d) = "personal") ∧
    (workMatch (lowerStr d) = true → shopMatch (lowerStr d) = true →
       (processTaskDescription d t).label = "work") := by
  refine ⟨rfl, ?_, ?_, ?_, ?_, ?_, ?_⟩ <;>
    · intros
      simp [processTaskDescription, extractLabel, *]

/-- Witness for `category_precedence`: "Buy a present for a work meeting"
matches both a work keyword and a shopping keyword and resolves to
"work". -/
theorem category_precedence_witness :
    workMatch (lowerStr "Buy a present for a work meeting") = true ∧
    shopMatch (lowerStr "Buy a present for a work meeting") = true ∧
    (processTaskDescription "Buy a present for a work meeting" 0).label =
      "work" :=
  ⟨by decide, by decide,
   (category_precedence "Buy a present for a work meeting" 0).2.2.2.2.2.2
     (by decide) (by decide)⟩

/-- C8: `checkHealth` never touches the local task data, returns the
boolean outcome of the probe (`response.ok`, or `false` when the fetch
threw), exits fallback exactly on a successful probe while the flag is
set (clearing the reason), and changes nothing on a failed probe. -/
theorem checkHealth_spec (s : ApiState) (o : HealthOutcome) (r : Bool)
    (e : JsError) :
    ((api.checkHealth s o).2.mockTasks = s.mockTasks ∧
     (api.checkHealth s o).2.nextId = s.nextId) ∧
    ((api.checkHealth s (.ok r)).1 = r) ∧
    (api.checkHealth s (.threw e) = (false, s)) ∧
    (s.isDemoMode = true →
       api.checkHealth s (.ok true) = (true, setDemoMode s false "")) ∧
    (s.isDemoMode = false → api.checkHealth s (.ok true) = (true, s)) ∧
    (api.checkHealth s (.ok false) = (false, s)) := by
  refine ⟨?_, ?_, rfl, ?_, ?_, rfl⟩
  · cases o with
    | ok r2 =>
        by_cases h : r2 && s.isDemoMode <;> simp [api.checkHealth, h]
    | threw e2 => exact ⟨rfl, rfl⟩
  · simp [api.checkHealth]
  · intro h; simp [api.checkHealth, h]
  · intro h; simp [api.checkHealth, h]

/-- Witness for `checkHealth_spec`: a successful probe in an active
fallback state turns the flag off and clears the reason. -/
theorem checkHealth_spec_witness :
    (api.checkHealth
        (setDemoMode (initialState 0) true "Backend server connection failed")
        (.ok true)).2.isDemoMode = false ∧
    (api.checkHealth
        (setDemoMode (initialState 0) true "Backend server connection failed")
        (.ok true)).2.demoModeReason = "" := by
  have h := (checkHealth_spec
    (setDemoMode (initialState 0) true "Backend server connection failed")
    (.ok true) true { message := "", name := "", status := none }).2.2.2.1
    (by decide)
  rw [h]
  exact ⟨rfl, rfl⟩

/-- C10: when the remote delete fails and the id is absent from the
store, `deleteTask` completes without raising, leaves the store's tasks
and id counter unchanged, and its only state change is the fallback flag
and reason set by the classifier — exactly the changes a failing delete
of a present id also makes, so the caller cannot distinguish the two. -/
theorem delete_absent_noop (s : ApiState) (id : Nat) (e : JsError)
    (online : Bool) (h : ∀ task ∈ s.mockTasks, task.id ≠ id) :
    (api.deleteTask s id (.err e) online).1.mockTasks = s.mockTasks ∧
    (api.deleteTask s id (.err e) online).1.nextId = s.nextId ∧
    (api.deleteTask s id (.err e) online).1.isDemoMode = true ∧
    (api.deleteTask s id (.err e) online).1.demoModeReason =
      classifyReason e none online ∧
    (api.deleteTask s id (.err e) online).2 = true ∧
    api.deleteTask s id (.ok ()) online = (s, true) := by
  have herase : eraseFirstTask s.mockTasks id = s.mockTasks :=
    eraseFirstTask_of_forall_ne s.mockTasks id h
  refine ⟨?_, rfl, rfl, rfl, rfl, rfl⟩
  simpa [api.deleteTask] using herase

/-- Witness for `delete_absent_noop`: deleting id 99 (absent from the
seeded store) under a network failure leaves the store unchanged. -/
theorem delete_absent_noop_witness :
    (api.deleteTask (initialState 0) 99
        (.err { message := "Failed to fetch", name := "TypeError",
                status := none }) true).1.mockTasks =
      (initialState 0).mockTasks ∧
    (api.deleteTask (initialState 0) 99
        (.err { message := "Failed to fetch", name := "TypeError",
                status := none }) true).1.demoModeReason =
      "Backend server connection failed" := by
  have h := delete_absent_noop (initialState 0) 99
    { message := "Failed to fetch", name := "TypeError", status := none }
    true (by decide)
  refine ⟨h.1, ?_⟩
  rw [h.2.2.2.1]
  decide

theorem localListResult_setDemoMode (s : ApiState) (b : Bool) (r : String)
    (label : Option String) :
    localListResult (setDemoMode s b r) label = localListResult s label := rfl

/-- C9: whenever `list` is served from the local store (fallback flag
set, or after a remote failure) the skip and limit arguments are ignored:
the response reports `skip = 0` and `limit = 50`, and exactly the stored
tasks passing the label filter are returned. -/
theorem list_local_pagination (s : ApiState) (label : Option String)
    (sk li : Nat) (o : Outcome TaskListResponse) (e : JsError)
    (online : Bool) :
    ((localListResult s label).skip = 0 ∧
     (localListResult s label).limit = 50) ∧
    (∀ tk : Task, tk ∈ (localListResult s label).tasks ↔
       tk ∈ s.mockTasks ∧ labelFilter label tk = true) ∧
    ((localListResult s label).total =
       (s.mockTasks.filter (labelFilter label)).length) ∧
    (s.isDemoMode = true →
       api.getTasks s label sk li o online = (localListResult s label, s, false)) ∧
    ((api.getTasks s label sk li (.err e) online).1 =
       localListResult (setDemoMode s true (classifyReason e none online)) label) := by
  have hmem : ∀ tk : Task, tk ∈ (localListResult s label).tasks ↔
      tk ∈ s.mockTasks ∧ labelFilter label tk = true := by
    intro tk
    unfold localListResult labelFilter
    cases label with
    | none => simp [List.mem_mergeSort]
    | some l =>
        by_cases hc : (l != "" && l != "all") = true <;>
          simp [hc, List.mem_mergeSort, List.mem_filter]
  refine ⟨⟨rfl, rfl⟩, hmem, ?_, ?_, ?_⟩
  · unfold localListResult labelFilter
    cases label with
    | none => simp
    | some l =>
        by_cases hc : (l != "" && l != "all") = true <;> simp [hc]
  · intro h
    simp [api.getTasks, h]
  · by_cases h : s.isDemoMode = true
    · simp [api.getTasks, h, localListResult_setDemoMode]
    · simp only [Bool.not_eq_true] at h
      simp [api.getTasks, h, localListResult_setDemoMode]

/-- Witness for `list_local_pagination`: in an active fallback state the
call never reaches the remote branch and reports `skip = 0`,
`limit = 50` even when called with `skip = 12`, `limit = 3`. -/
theorem list_local_pagination_witness :
    (api.getTasks
        (setDemoMode (initialState 0) true "Backend server connection failed")
        none 12 3 (.err { message := "x", name := "Error", status := none })
        true).1.skip = 0 ∧
    (api.getTasks
        (setDemoMode (initialState 0) true "Backend server connection failed")
        none 12 3 (.err { message := "x", name := "Error", status := none })
        true).1.limit = 50 := by
  have h := (list_local_pagination
    (setDemoMode (initialState 0) true "Backend server connection failed")
    none 12 3 (.err { message := "x", name := "Error", status := none })
    { message := "x", name := "Error", status := none } true).2.2.2.1 (by decide)
  rw [h]
  exact ⟨rfl, rfl⟩

/-- C1 counterexample: with the fallback flag active, `getTask` still
attempts the remote call and returns the remote payload — a task that is
not in the Local Task Store at all — contradicting the claim that every
operation is then served directly from the Local Task Store with no
remote call attempted. -/
theorem gateway_fallback_gating_cex :
    (setDemoMode (initialState 0) true
        "Backend server connection failed").isDemoMode = true ∧
    (api.getTask
        (setDemoMode (initialState 0) true "Backend server connection failed")
        42
        (.ok { id := 42, title := "Remote", description := "Remote",
               label := "personal", due_date := none, created_at := 5,
               updated_at := 5 }) true).2.2 = true ∧
    (api.getTask
        (setDemoMode (initialState 0) true "Backend server connection failed")
        42
        (.ok { id := 42, title := "Remote", description := "Remote",
               label := "personal", due_date := none, created_at := 5,
               updated_at := 5 }) true).1 =
      .ok { id := 42, title := "Remote", description := "Remote",
            label := "personal", due_date := none, created_at := 5,
            updated_at := 5 } ∧
    ({ id := 42, title := "Remote", description := "Remote",
       label := "personal", due_date := none, created_at := 5,
       updated_at := 5 } : Task) ∉
      (setDemoMode (initialState 0) true
        "Backend server connection failed").mockTasks := by
  refine ⟨rfl, rfl, rfl, ?_⟩
  decide

/-- C1 amended: only `list` (`getTasks`) short-circuits on an active
fallback flag, serving from the Local Task Store without attempting the
remote call; `get`, `create`, `update`, `delete`, `labels` and
`summarize` attempt the remote call unconditionally — regardless of the
flag — and serve from the Local Task Store only after that call fails. -/
theorem gateway_fallback_gating (s : ApiState) (label : Option String)
    (sk li : Nat) (lo : Outcome TaskListResponse) (id : Nat)
    (oT oC oU : Outcome Task) (d : String) (now : Int) (oD : Outcome Unit)
    (oL : Outcome (List String)) (req : SummaryRequest)
    (oS : Outcome SummaryResponse) (online : Bool) :
    (s.isDemoMode = true →
       api.getTasks s label sk li lo online =
         (localListResult s label, s, false)) ∧
    ((api.getTask s id oT online).2.2 = true) ∧
    ((api.createTask s d now oC online).2.2 = true) ∧
    ((api.updateTask s id d now oU online).2.2 = true) ∧
    ((api.deleteTask s id oD online).2 = true) ∧
    ((api.getLabels s oL online).2.2 = true) ∧
    ((api.generateSummary s req oS online).2.2 = true) := by
  refine ⟨?_, ?_, ?_, ?_, ?_, ?_, ?_⟩
  · intro h
    simp [api.getTasks, h]
  · cases oT with
    | ok t => rfl
    | err e =>
        simp only [api.getTask]
        split <;> rfl
  · cases oC with
    | ok t => rfl
    | err e => rfl
  · cases oU with
    | ok t => rfl
    | err e =>
        simp only [api.updateTask, handleApiError_fst]
        repeat' split
        all_goals rfl
  · cases oD <;> rfl
  · cases oL <;> rfl
  · cases oS <;> rfl

/-- Witness for `gateway_fallback_gating`: the `list` short-circuit at a
concrete fallback-active state. -/
theorem gateway_fallback_gating_witness :
    api.getTasks
        (setDemoMode (initialState 0) true "Backend server connection failed")
        none 0 50 (.ok { tasks := [], total := 0, skip := 0, limit := 50 })
        true =
      (localListResult
        (setDemoMode (initialState 0) true "Backend server connection failed")
        none,
       setDemoMode (initialState 0) true "Backend server connection failed",
       false) :=
  (gateway_fallback_gating
    (setDemoMode (initialState 0) true "Backend server connection failed")
    none 0 50 (.ok { tasks := [], total := 0, skip := 0, limit := 50 })
    1 (.err { message := "", name := "", status := none })
    (.err { message := "", name := "", status := none })
    (.err { message := "", name := "", status := none }) "" 0 (.ok ()) (.ok [])
    { start_date := 0, end_date := 0 }
    (.ok { summary := "", start_date := 0, end_date := 0, task_count := 0 })
    true).1 (by decide)

/-- C2 counterexample: a remote `create` that succeeds while the
fallback flag is active leaves the flag set (the state is completely
unchanged), contradicting the claim that every gateway operation calls
`exit()` on remote success with the flag active. -/
theorem fallback_clear_only_cex :
    (setDemoMode (initialState 0) true
        "Backend server connection failed").isDemoMode = true ∧
    step (setDemoMode (initialState 0) true "Backend server connection failed")
        (.create "write report"
          (.ok { id := 9, title := "write report", description := "write report",
                 label := "work", due_date := none, created_at := 7,
                 updated_at := 7 })) 7 true =
      setDemoMode (initialState 0) true "Backend server connection failed" ∧
    (step (setDemoMode (initialState 0) true "Backend server connection failed")
        (.create "write report"
          (.ok { id := 9, title := "write report", description := "write report",
                 label := "work", due_date := none, created_at := 7,
                 updated_at := 7 })) 7 true).isDemoMode = true := by
  refine ⟨rfl, rfl, rfl⟩

/-- C2 amended: once the fallback flag is set, a gateway step turns it
off exactly when the step is a `checkHealth` probe whose response is ok,
or the manual `exitDemoMode` action (which clears unconditionally); in
particular no data operation clears it — `list` skips the remote call
entirely while the flag is set, and the other operations do not call
`exit()` on remote success. -/
theorem fallback_clear_only (s : ApiState) (op : GatewayOp) (now : Int)
    (online : Bool) (h : s.isDemoMode = true) :
    ((step s op now online).isDemoMode = false ↔ clearsFlag op = true) := by
  cases op with
  | list label sk li o => simp [step, api.getTasks, h, clearsFlag]
  | get id o =>
      cases o with
      | ok t => simp [step, api.getTask, h, clearsFlag]
      | err e =>
          simp only [step, api.getTask, clearsFlag]
          split <;> simp [h, clearsFlag]
  | create d o =>
      cases o with
      | ok t => simp [step, api.createTask, h, clearsFlag]
      | err e => simp [step, api.createTask, h, clearsFlag]
  | update id d o =>
      cases o with
      | ok t => simp [step, api.updateTask, h, clearsFlag]
      | err e =>
          simp only [step, api.updateTask, clearsFlag]
          repeat' split
          all_goals simp [h, clearsFlag]
  | delete id o =>
      cases o with
      | ok u => simp [step, api.deleteTask, h, clearsFlag]
      | err e => simp [step, api.deleteTask, h, clearsFlag]
  | labels o =>
      cases o with
      | ok ls => simp [step, api.getLabels, h, clearsFlag]
      | err e => simp [step, api.getLabels, h, clearsFlag]
  | summarize req o =>
      cases o with
      | ok r => simp [step, api.generateSummary, h, clearsFlag]
      | err e => simp [step, api.generateSummary, h, clearsFlag]
  | health o =>
      cases o with
      | ok r => cases r <;> simp [step, api.checkHealth, h, clearsFlag]
      | threw e => simp [step, api.checkHealth, h, clearsFlag]
  | exitDemo => simp [step, api.exitDemoMode, h, clearsFlag]

/-- Witness for `fallback_clear_only`: a successful health probe clears
the flag at a concrete fallback-active state. -/
theorem fallback_clear_only_witness :
    (step (setDemoMode (initialState 0) true "Backend server connection failed")
        (.health (.ok true)) 0 true).isDemoMode = false :=
  ((fallback_clear_only
      (setDemoMode (initialState 0) true "Backend server connection failed")
      (.health (.ok true)) 0 true (by decide)).mpr (by decide))

theorem updateFirstTask_eq_none_iff (l : List Task) (id : Nat)
    (f : Task → Task) :
    updateFirstTask l id f = none ↔
      l.find? (fun t => t.id == id) = none := by
  induction l with
  | nil => simp [updateFirstTask]
  | cons hd tl ih =>
      by_cases hh : hd.id = id
      · simp [updateFirstTask, hh]
      · simp only [updateFirstTask, if_neg hh, List.find?]
        have hb : (hd.id == id) = false := by simpa using hh
        rw [hb]
        cases hu : updateFirstTask tl id f with
        | some ts2 => simpa [hu] using ih
        | none => simpa [hu] using ih

theorem find?_some_updateFirstTask (l : List Task) (id : Nat)
    (f : Task → Task) (tk : Task)
    (h : l.find? (fun t => t.id == id) = some tk) :
    ∃ l2, updateFirstTask l id f = some l2 := by
  cases hu : updateFirstTask l id f with
  | some l2 => exact ⟨l2, rfl⟩
  | none =>
      rw [updateFirstTask_eq_none_iff] at hu
      rw [hu] at h
      cases h

/-- C4: on a remote failure every gateway operation absorbs the error
and answers from the Local Task Store — `list` returns the local list,
`create` returns the locally created task, `delete` performs the local
removal, `labels` and `summarize` return the locally computed values —
except `get(id)` and `update(id)`, which yield the "Task not found"
error exactly when the id is absent from the store.  The statements
quantify over every state `s`, so the not-found behaviour covers both
live mode (`isDemoMode = false`) and fallback mode. -/
theorem failure_absorption (s : ApiState) (label : Option String)
    (sk li : Nat) (id : Nat) (d : String) (now : Int)
    (req : SummaryRequest) (e : JsError) (online : Bool) :
    ((api.getTasks s label sk li (.err e) online).1 =
       localListResult (setDemoMode s true (classifyReason e none online))
         label) ∧
    (∃ tk : Task, (api.createTask s d now (.err e) online).1 = .ok tk ∧
       tk.description = d) ∧
    ((api.deleteTask s id (.err e) online).1.mockTasks =
       eraseFirstTask s.mockTasks id) ∧
    ((api.getLabels s (.err e) online).1 =
       sortStrings (dedupFirst (s.mockTasks.map (fun t => t.label)))) ∧
    ((api.generateSummary s req (.err e) online).1.task_count =
       (s.mockTasks.filter (fun t =>
         decide (req.start_date ≤ t.created_at) &&
         decide (t.created_at ≤ req.end_date))).length) ∧
    ((s.mockTasks.find? (fun t => t.id == id) = none →
        (api.getTask s id (.err e) online).1 = .error "Task not found") ∧
     (∀ tk, s.mockTasks.find? (fun t => t.id == id) = some tk →
        (api.getTask s id (.err e) online).1 = .ok tk)) ∧
    ((s.mockTasks.find? (fun t => t.id == id) = none →
        (api.updateTask s id d now (.err e) online).1 =
          .error "Task not found") ∧
     (∀ tk, s.mockTasks.find? (fun t => t.id == id) = some tk →
        ∃ tk2, (api.updateTask s id d now (.err e) online).1 = .ok tk2 ∧
          tk2.description = d ∧ tk2.id = tk.id ∧
          tk2.created_at = tk.created_at ∧ tk2.updated_at = now)) := by
  refine ⟨?_, ⟨_, rfl, rfl⟩, rfl, rfl, rfl, ⟨?_, ?_⟩, ⟨?_, ?_⟩⟩
  · by_cases h : s.isDemoMode = true
    · simp [api.getTasks, h, localListResult_setDemoMode]
    · simp only [Bool.not_eq_true] at h
      simp [api.getTasks, h, localListResult_setDemoMode]
  · intro hfind
    simp [api.getTask, hfind]
  · intro tk hfind
    simp [api.getTask, hfind]
  · intro hfind
    have hu : updateFirstTask s.mockTasks id
        (fun old =>
          { old with
              title := if (processTaskDescription d now).title == "" then
                  jsTake d 50
                else (processTaskDescription d now).title
              description := d
              label := if (processTaskDescription d now).label == "" then
                  old.label
                else (processTaskDescription d now).label
              due_date := (processTaskDescription d now).due_date
              updated_at := now }) = none :=
      (updateFirstTask_eq_none_iff s.mockTasks id _).mpr hfind
    simp only [api.updateTask, handleApiError_snd, setDemoMode_mockTasks]
    rw [hu]
    rfl
  · intro tk hfind
    obtain ⟨l2, hu⟩ := find?_some_updateFirstTask s.mockTasks id
      (fun old =>
        { old with
            title := if (processTaskDescription d now).title == "" then
                jsTake d 50
              else (processTaskDescription d now).title
            description := d
            label := if (processTaskDescription d now).label == "" then
                old.label
              else (processTaskDescription d now).label
            due_date := (processTaskDescription d now).due_date
            updated_at := now }) tk hfind
    refine ⟨{ tk with
        title := if (processTaskDescription d now).title == "" then
            jsTake d 50
          else (processTaskDescription d now).title
        description := d
        label := if (processTaskDescription d now).label == "" then
            tk.label
          else (processTaskDescription d now).label
        due_date := (processTaskDescription d now).due_date
        updated_at := now }, ?_, rfl, rfl, rfl, rfl⟩
    simp only [api.updateTask, handleApiError_snd, setDemoMode_mockTasks]
    rw [hu, hfind]
    rfl

/-- Witness for `failure_absorption`: at the seeded store, a failing
`get` of the present id 1 returns the stored sample task, and a failing
`get` of the absent id 99 surfaces "Task not found". -/
theorem failure_absorption_witness :
    (api.getTask (initialState 0) 1
        (.err { message := "Failed to fetch", name := "TypeError",
                status := none }) true).1 =
      .ok { id := 1, title := "Sample Task",
            description := "This is a sample task shown when API is unavailable",
            label := "personal", due_date := none, created_at := 0,
            updated_at := 0 } ∧
    (api.getTask (initialState 0) 99
        (.err { message := "Failed to fetch", name := "TypeError",
                status := none }) true).1 = .error "Task not found" := by
  constructor
  · exact (failure_absorption (initialState 0) none 0 50 1 "" 0
      { start_date := 0, end_date := 0 }
      { message := "Failed to fetch", name := "TypeError", status := none }
      true).2.2.2.2.2.1.2 _ (by decide)
  · exact (failure_absorption (initialState 0) none 0 50 99 "" 0
      { start_date := 0, end_date := 0 }
      { message := "Failed to fetch", name := "TypeError", status := none }
      true).2.2.2.2.2.1.1 (by decide)

/-- C5 counterexample: the source checks "friday" *before* "next month"
(order: tomorrow, next week, friday, next month, monday), not in the
claim's order (tomorrow, next week, next month, friday, monday).  On
"pay rent friday next month" at 2025-06-15 (a Sunday) the code yields
the next Friday (+5 days) while the claim's order yields +1 calendar
month (+30 days). -/
theorem jsGetDay_nonneg (t : Int) : 0 ≤ jsGetDay t := by
  unfold jsGetDay
  exact Int.emod_nonneg _ (by norm_num)

theorem jsGetDay_lt (t : Int) : jsGetDay t < 7 := by
  unfold jsGetDay
  exact Int.emod_lt_of_pos _ (by norm_num)

theorem jsGetDay_addDays (t k : Int) :
    jsGetDay (jsAddDays t k) = (jsGetDay t + k) % 7 := by
  unfold jsGetDay jsAddDays dayMs
  rw [Int.add_mul_ediv_right t k (by norm_num : (86400000 : Int) ≠ 0)]
  rw [Int.add_emod ((t / 86400000 + 4) % 7) k,
      Int.emod_emod_of_dvd _ (dvd_refl 7), ← Int.add_emod]
  ring_nf

/-- The `(target - getDay + 7) % 7 || 7` offset lands on weekday
`target`, one to seven days ahead. -/
theorem nextDowOffset_spec (w a : Int) (_h0 : 0 ≤ a) (_h7 : a < 7) :
    1 ≤ (if (w - a + 7) % 7 = 0 then 7 else (w - a + 7) % 7) ∧
    (if (w - a + 7) % 7 = 0 then 7 else (w - a + 7) % 7) ≤ 7 ∧
    (a + (if (w - a + 7) % 7 = 0 then 7 else (w - a + 7) % 7)) % 7 =
      w % 7 := by
  have hM0 : 0 ≤ (w - a + 7) % 7 := Int.emod_nonneg _ (by norm_num)
  have hM7 : (w - a + 7) % 7 < 7 := Int.emod_lt_of_pos _ (by norm_num)
  by_cases h : (w - a + 7) % 7 = 0
  · refine ⟨by simp [h], by simp [h], ?_⟩
    simp only [h, if_true]
    have : (w - a + 7) % 7 = 0 := h
    omega
  · refine ⟨by simp [h]; omega, by simp [h]; omega, ?_⟩
    simp only [h, if_false]
    omega

theorem due_date_rules_cex :
    jsIncludes (lowerStr "pay rent friday next month") "friday" = true ∧
    jsIncludes (lowerStr "pay rent friday next month") "next month" = true ∧
    jsIncludes (lowerStr "pay rent friday next month") "tomorrow" = false ∧
    jsIncludes (lowerStr "pay rent friday next month") "next week" = false ∧
    (processTaskDescription "pay rent friday next month"
        1750000000000).due_date = some (jsAddDays 1750000000000 5) ∧
    extractDueDateClaimOrder (lowerStr "pay rent friday next month")
        1750000000000 = some (jsAddMonth 1750000000000) ∧
    jsAddMonth 1750000000000 = jsAddDays 1750000000000 30 ∧
    (processTaskDescription "pay rent friday next month"
        1750000000000).due_date ≠
      extractDueDateClaimOrder (lowerStr "pay rent friday next month")
        1750000000000 := by
  decide

/-- C5 amended: the extractor's due date is resolved by exactly one
rule, first match wins, in the source order tomorrow, next week,
friday, next month, monday (the claim's order had next month before
friday).  "tomorrow" yields exactly 24 hours (86400000 ms) after
extraction time; "friday"/"monday" resolve to the next upcoming such
weekday — between one and seven days ahead, never the same day; with no
keyword the due date is absent. -/
theorem due_date_rules (d : String) (t : Int) :
    ((processTaskDescription d t).due_date = extractDueDate (lowerStr d) t) ∧
    (jsIncludes (lowerStr d) "tomorrow" = true →
       extractDueDate (lowerStr d) t = some (t + 86400000)) ∧
    (jsIncludes (lowerStr d) "tomorrow" = false →
     jsIncludes (lowerStr d) "next week" = true →
       extractDueDate (lowerStr d) t = some (t + 7 * 86400000)) ∧
    (jsIncludes (lowerStr d) "tomorrow" = false →
     jsIncludes (lowerStr d) "next week" = false →
     jsIncludes (lowerStr d) "friday" = true →
       ∃ k : Int, extractDueDate (lowerStr d) t = some (t + k * 86400000) ∧
         1 ≤ k ∧ k ≤ 7 ∧ jsGetDay (t + k * 86400000) = 5) ∧
    (jsIncludes (lowerStr d) "tomorrow" = false →
     jsIncludes (lowerStr d) "next week" = false →
     jsIncludes (lowerStr d) "friday" = false →
     jsIncludes (lowerStr d) "next month" = true →
       extractDueDate (lowerStr d) t = some (jsAddMonth t)) ∧
    (jsIncludes (lowerStr d) "tomorrow" = false →
     jsIncludes (lowerStr d) "next week" = false →
     jsIncludes (lowerStr d) "friday" = false →
     jsIncludes (lowerStr d) "next month" = false →
     jsIncludes (lowerStr d) "monday" = true →
       ∃ k : Int, extractDueDate (lowerStr d) t = some (t + k * 86400000) ∧
         1 ≤ k ∧ k ≤ 7 ∧ jsGetDay (t + k * 86400000) = 1) ∧
    (jsIncludes (lowerStr d) "tomorrow" = false →
     jsIncludes (lowerStr d) "next week" = false →
     jsIncludes (lowerStr d) "friday" = false →
     jsIncludes (lowerStr d) "next month" = false →
     jsIncludes (lowerStr d) "monday" = false →
       extractDueDate (lowerStr d) t = none) := by
  refine ⟨rfl, ?_, ?_, ?_, ?_, ?_, ?_⟩
  · intro h1
    simp [extractDueDate, h1, jsAddDays, dayMs]
  · intro h1 h2
    simp [extractDueDate, h1, h2, jsAddDays, dayMs]
  · intro h1 h2 h3
    simp only [extractDueDate, h1, h2, h3, Bool.false_eq_true, if_false,
      if_true]
    obtain ⟨hk1, hk7, hk5⟩ :=
      nextDowOffset_spec 5 (jsGetDay t) (jsGetDay_nonneg t) (jsGetDay_lt t)
    refine ⟨_, rfl, hk1, hk7, ?_⟩
    show jsGetDay (jsAddDays t _) = 5
    rw [jsGetDay_addDays]
    exact hk5
  · intro h1 h2 h3 h4
    simp [extractDueDate, h1, h2, h3, h4]
  · intro h1 h2 h3 h4 h5
    simp only [extractDueDate, h1, h2, h3, h4, h5, Bool.false_eq_true,
      if_false, if_true]
    obtain ⟨hk1, hk7, hk5⟩ :=
      nextDowOffset_spec 1 (jsGetDay t) (jsGetDay_nonneg t) (jsGetDay_lt t)
    refine ⟨_, rfl, hk1, hk7, ?_⟩
    show jsGetDay (jsAddDays t _) = 1
    rw [jsGetDay_addDays]
    exact hk5
  · intro h1 h2 h3 h4 h5
    simp [extractDueDate, h1, h2, h3, h4, h5]

/-- Witness for `due_date_rules`: "Buy milk tomorrow" yields a due date
exactly 24 hours after the extraction time. -/
theorem due_date_rules_witness :
    (processTaskDescription "Buy milk tomorrow" 1750000000000).due_date =
      some (1750000000000 + 86400000) := by
  have h := due_date_rules "Buy milk tomorrow" 1750000000000
  rw [h.1]
  exact h.2.1 (by decide)

theorem storeInv_mono {s : ApiState} {t t2 : Int} (h : StoreInv s t)
    (hle : t ≤ t2) : StoreInv s t2 := by
  obtain ⟨h1, h2⟩ := h
  refine ⟨?_, h2⟩
  intro task htask
  obtain ⟨ha, hb, hc⟩ := h1 task htask
  exact ⟨ha, le_trans hb hle, hc⟩

theorem storeInv_congr {s s2 : ApiState} {t : Int}
    (hm : s2.mockTasks = s.mockTasks) (hn : s2.nextId = s.nextId)
    (h : StoreInv s t) : StoreInv s2 t := by
  obtain ⟨h1, h2⟩ := h
  constructor
  · intro task htask
    rw [hm] at htask
    obtain ⟨ha, hb, hc⟩ := h1 task htask
    exact ⟨ha, hb, hn ▸ hc⟩
  · rw [hm]
    exact h2

theorem updateFirstTask_map_id (l : List Task) (id : Nat) (f : Task → Task) :
    ∀ l2, updateFirstTask l id f = some l2 → (∀ y, (f y).id = y.id) →
      l2.map (fun task => task.id) = l.map (fun task => task.id) := by
  induction l with
  | nil => intro l2 h; cases h
  | cons hd tl ih =>
      intro l2 h hf
      by_cases hh : hd.id = id
      · simp only [updateFirstTask, if_pos hh] at h
        cases h
        simp [hf]
      · simp only [updateFirstTask, if_neg hh] at h
        cases hu : updateFirstTask tl id f with
        | some ts2 =>
            rw [hu] at h
            cases h
            simp [ih ts2 hu hf]
        | none => rw [hu] at h; cases h

theorem mem_updateFirstTask (l : List Task) (id : Nat) (f : Task → Task) :
    ∀ l2, updateFirstTask l id f = some l2 →
      ∀ x ∈ l2, x ∈ l ∨ ∃ y, y ∈ l ∧ x = f y := by
  induction l with
  | nil => intro l2 h; cases h
  | cons hd tl ih =>
      intro l2 h x hx
      by_cases hh : hd.id = id
      · simp only [updateFirstTask, if_pos hh] at h
        cases h
        rcases List.mem_cons.mp hx with h1 | h1
        · exact Or.inr ⟨hd, List.mem_cons_self hd tl, h1⟩
        · exact Or.inl (List.mem_cons_of_mem hd h1)
      · simp only [updateFirstTask, if_neg hh] at h
        cases hu : updateFirstTask tl id f with
        | some ts2 =>
            rw [hu] at h
            cases h
            rcases List.mem_cons.mp hx with h1 | h1
            · exact Or.inl (h1 ▸ List.mem_cons_self hd tl)
            · rcases ih ts2 hu x h1 with h2 | ⟨y, hy, hxy⟩
              · exact Or.inl (List.mem_cons_of_mem hd h2)
              · exact Or.inr ⟨y, List.mem_cons_of_mem hd hy, hxy⟩
        | none => rw [hu] at h; cases h

theorem updateFirstTask_eq (l : List Task) (id : Nat) (f : Task → Task) :
    ∀ l2, updateFirstTask l id f = some l2 →
      ∃ pre tk0 post, l = pre ++ tk0 :: post ∧ (∀ y ∈ pre, y.id ≠ id) ∧
        tk0.id = id ∧ l2 = pre ++ f tk0 :: post ∧
        l.find? (fun t => t.id == id) = some tk0 := by
  induction l with
  | nil => intro l2 h; cases h
  | cons hd tl ih =>
      intro l2 h
      by_cases hh : hd.id = id
      · simp only [updateFirstTask, if_pos hh] at h
        cases h
        refine ⟨[], hd, tl, rfl, by simp, hh, rfl, ?_⟩
        simp [List.find?, hh]
      · simp only [updateFirstTask, if_neg hh] at h
        cases hu : updateFirstTask tl id f with
        | some ts2 =>
            rw [hu] at h
            cases h
            obtain ⟨pre, tk0, post, h1, h2, h3, h4, h5⟩ := ih ts2 hu
            have hb : (hd.id == id) = false := by simpa using hh
            refine ⟨hd :: pre, tk0, post, by rw [h1]; rfl, ?_, h3,
              by rw [h4]; rfl, ?_⟩
            · intro y hy
              rcases List.mem_cons.mp hy with h6 | h6
              · exact h6 ▸ hh
              · exact h2 y h6
            · simp [List.find?, hb, h5]
        | none => rw [hu] at h; cases h

theorem eraseFirstTask_sublist (l : List Task) (id : Nat) :
    (eraseFirstTask l id).Sublist l := by
  induction l with
  | nil => simp [eraseFirstTask]
  | cons hd tl ih =>
      by_cases hh : hd.id = id
      · simp only [eraseFirstTask, if_pos hh]
        exact List.sublist_cons_self hd tl
      · simp only [eraseFirstTask, if_neg hh]
        exact ih.cons₂ hd

theorem storeInv_step {s : ApiState} {t : Int} (inv : StoreInv s t)
    (op : GatewayOp) {t2 : Int} (hle : t ≤ t2) (online : Bool) :
    StoreInv (step s op t2 online) t2 := by
  have inv2 : StoreInv s t2 := storeInv_mono inv hle
  cases op with
  | list label sk li o =>
      refine storeInv_congr ?_ ?_ inv2 <;>
        · simp only [step, api.getTasks]
          split <;> (try split) <;> rfl
  | get id o =>
      refine storeInv_congr ?_ ?_ inv2 <;>
        · cases o with
          | ok tk => rfl
          | err e =>
              simp only [step, api.getTask]
              split <;> rfl
  | create d o =>
      cases o with
      | ok tk => exact storeInv_congr rfl rfl inv2
      | err e =>
          obtain ⟨h1, h2⟩ := inv2
          constructor
          · intro task htask
            simp only [step, api.createTask, handleApiError_fst,
              handleApiError_snd, setDemoMode_mockTasks, setDemoMode_nextId,
              if_true, List.mem_append, List.mem_singleton] at htask ⊢
            rcases htask with h3 | h3
            · obtain ⟨ha, hb, hc⟩ := h1 task h3
              exact ⟨ha, hb, Nat.lt_succ_of_lt hc⟩
            · subst h3
              exact ⟨le_refl _, le_refl _, Nat.lt_succ_self _⟩
          · simp only [step, api.createTask, handleApiError_fst,
              handleApiError_snd, setDemoMode_mockTasks, setDemoMode_nextId,
              if_true, List.map_append, List.map_cons, List.map_nil]
            rw [List.nodup_append]
            refine ⟨h2, List.nodup_singleton _, ?_⟩
            intro x hx
            simp only [List.mem_map] at hx
            obtain ⟨task, htask, hxid⟩ := hx
            have := (h1 task htask).2.2
            simp only [List.mem_singleton]
            omega
  | update id d o =>
      cases o with
      | ok tk => exact storeInv_congr rfl rfl inv2
      | err e =>
          simp only [step, api.updateTask, handleApiError_fst,
            handleApiError_snd, setDemoMode_mockTasks, if_true]
          cases hu : updateFirstTask s.mockTasks id
              (fun old =>
                { old with
                    title := if (processTaskDescription d t2).title == "" then
                        jsTake d 50
                      else (processTaskDescription d t2).title
                    description := d
                    label := if (processTaskDescription d t2).label == "" then
                        old.label
                      else (processTaskDescription d t2).label
                    due_date := (processTaskDescription d t2).due_date
                    updated_at := t2 }) with
          | none => exact storeInv_congr rfl rfl inv2
          | some tasks2 =>
              cases hf : List.find? (fun tk => tk.id == id) s.mockTasks with
              | none => exact storeInv_congr rfl rfl inv2
              | some tk0 =>
                  obtain ⟨h1, h2⟩ := inv2
                  constructor
                  · intro task htask
                    simp only at htask
                    rcases mem_updateFirstTask s.mockTasks id _ tasks2 hu
                        task htask with h3 | ⟨y, hy, hxy⟩
                    · obtain ⟨ha, hb, hc⟩ := h1 task h3
                      exact ⟨ha, hb, hc⟩
                    · obtain ⟨ha, hb, hc⟩ := h1 y hy
                      subst hxy
                      exact ⟨le_trans ha hb, le_refl _, hc⟩
                  · show (tasks2.map (fun task => task.id)).Nodup
                    rw [updateFirstTask_map_id s.mockTasks id _ tasks2 hu
                      (fun y => rfl)]
                    exact h2
  | delete id o =>
      cases o with
      | ok u => exact storeInv_congr rfl rfl inv2
      | err e =>
          obtain ⟨h1, h2⟩ := inv2
          constructor
          · intro task htask
            simp only [step, api.deleteTask, handleApiError_snd,
              setDemoMode_mockTasks, setDemoMode_nextId] at htask ⊢
            exact h1 task ((eraseFirstTask_sublist s.mockTasks id).mem htask)
          · simp only [step, api.deleteTask, handleApiError_snd,
              setDemoMode_mockTasks]
            exact h2.sublist ((eraseFirstTask_sublist s.mockTasks id).map _)
  | labels o =>
      refine storeInv_congr ?_ ?_ inv2 <;> cases o <;> rfl
  | summarize req o =>
      refine storeInv_congr ?_ ?_ inv2 <;> cases o <;> rfl
  | health o =>
      refine storeInv_congr ?_ ?_ inv2 <;>
        · cases o with
          | ok r =>
              simp only [step, api.checkHealth]
              split <;> rfl
          | threw e => rfl
  | exitDemo => exact storeInv_congr rfl rfl inv2

theorem storeInv_reachable {s : ApiState} {t : Int} (h : Reachable s t) :
    StoreInv s t := by
  induction h with
  | init t0 =>
      constructor
      · intro task htask
        simp only [initialState, List.mem_singleton] at htask
        subst htask
        exact ⟨le_refl _, le_refl _, by norm_num [initialState]⟩
      · simp [initialState]
  | next h op online hle ih => exact storeInv_step ih op hle online

/-- C7: across every reachable state of the Local Task Store:
`created_at ≤ updated_at` for every stored task, stored ids are pairwise
distinct and all below the `nextId` counter; `nextId` never decreases
across a step, and a local create assigns exactly `nextId` (then bumps
it), so created ids are strictly increasing and never reused; a local
update preserves the id sequence of the store (ids are immutable) and
writes the supplied description verbatim with `updated_at = now`, both
in the returned task and in the store itself: after a successful local
update the store is exactly the old store with its first id-matching
entry replaced by the returned task; a local create stores the supplied
description verbatim with `created_at = updated_at = now`; no operation
other than create/update/delete ever changes the stored tasks. -/
theorem store_invariants :
    (∀ (s : ApiState) (t : Int), Reachable s t →
       (∀ task ∈ s.mockTasks, task.created_at ≤ task.updated_at) ∧
       (s.mockTasks.map (fun task => task.id)).Nodup ∧
       (∀ task ∈ s.mockTasks, task.id < s.nextId)) ∧
    (∀ (s : ApiState) (op : GatewayOp) (now : Int) (online : Bool),
       s.nextId ≤ (step s op now online).nextId) ∧
    (∀ (s : ApiState) (d : String) (now : Int) (e : JsError)
        (online : Bool),
       ∃ tk : Task, (api.createTask s d now (.err e) online).1 = .ok tk ∧
         tk.id = s.nextId ∧ tk.description = d ∧ tk.created_at = now ∧
         tk.updated_at = now ∧
         (api.createTask s d now (.err e) online).2.1.nextId =
           s.nextId + 1 ∧
         (api.createTask s d now (.err e) online).2.1.mockTasks =
           s.mockTasks ++ [tk]) ∧
    (∀ (s : ApiState) (id : Nat) (d : String) (now : Int)
        (o : Outcome Task) (online : Bool),
       (api.updateTask s id d now o online).2.1.mockTasks.map
           (fun task => task.id) =
         s.mockTasks.map (fun task => task.id)) ∧
    (∀ (s : ApiState) (id : Nat) (d : String) (now : Int) (e : JsError)
        (online : Bool) (tk2 : Task),
       (api.updateTask s id d now (.err e) online).1 = .ok tk2 →
         tk2.description = d ∧ tk2.updated_at = now) ∧
    (∀ (s : ApiState) (id : Nat) (d : String) (now : Int) (e : JsError)
        (online : Bool) (tk2 : Task),
       (api.updateTask s id d now (.err e) online).1 = .ok tk2 →
         ∃ pre tk0 post,
           s.mockTasks = pre ++ tk0 :: post ∧
           (∀ y ∈ pre, y.id ≠ id) ∧ tk0.id = id ∧
           (api.updateTask s id d now (.err e) online).2.1.mockTasks =
             pre ++ tk2 :: post ∧
           tk2.description = d ∧ tk2.updated_at = now ∧
           tk2.id = tk0.id ∧ tk2.created_at = tk0.created_at) ∧
    (∀ (s : ApiState) (label : Option String) (sk li : Nat)
        (o : Outcome TaskListResponse) (oT : Outcome Task)
        (oL : Outcome (List String)) (req : SummaryRequest)
        (oS : Outcome SummaryResponse) (oH : HealthOutcome) (id : Nat)
        (now : Int) (online : Bool),
       (step s (.list label sk li o) now online).mockTasks = s.mockTasks ∧
       (step s (.get id oT) now online).mockTasks = s.mockTasks ∧
       (step s (.labels oL) now online).mockTasks = s.mockTasks ∧
       (step s (.summarize req oS) now online).mockTasks = s.mockTasks ∧
       (step s (.health oH) now online).mockTasks = s.mockTasks ∧
       (step s .exitDemo now online).mockTasks = s.mockTasks) := by
  refine ⟨?_, ?_, ?_, ?_, ?_, ?_, ?_⟩
  · intro s t h
    obtain ⟨h1, h2⟩ := storeInv_reachable h
    exact ⟨fun task htask => (h1 task htask).1, h2,
      fun task htask => (h1 task htask).2.2⟩
  · intro s op now online
    cases op with
    | list label sk li o =>
        simp only [step, api.getTasks]
        split <;> (try split) <;> simp
    | get id o =>
        cases o with
        | ok tk => exact le_refl _
        | err e =>
            simp only [step, api.getTask]
            split <;> simp
    | create d o =>
        cases o with
        | ok tk => exact le_refl _
        | err e => simp [step, api.createTask]
    | update id d o =>
        cases o with
        | ok tk => exact le_refl _
        | err e =>
            simp only [step, api.updateTask, handleApiError_fst, if_true]
            repeat' split
            all_goals simp
    | delete id o => cases o <;> simp [step, api.deleteTask]
    | labels o => cases o <;> simp [step, api.getLabels]
    | summarize req o => cases o <;> simp [step, api.generateSummary]
    | health o =>
        cases o with
        | ok r =>
            simp only [step, api.checkHealth]
            split <;> simp
        | threw e => exact le_refl _
    | exitDemo => exact le_refl _
  · intro s d now e online
    exact ⟨_, rfl, rfl, rfl, rfl, rfl, rfl, rfl⟩
  · intro s id d now o online
    cases o with
    | ok tk => rfl
    | err e =>
        simp only [api.updateTask, handleApiError_fst, handleApiError_snd,
          setDemoMode_mockTasks, if_true]
        cases hu : updateFirstTask s.mockTasks id
            (fun old =>
              { old with
                  title := if (processTaskDescription d now).title == "" then
                      jsTake d 50
                    else (processTaskDescription d now).title
                  description := d
                  label := if (processTaskDescription d now).label == "" then
                      old.label
                    else (processTaskDescription d now).label
                  due_date := (processTaskDescription d now).due_date
                  updated_at := now }) with
        | none => rfl
        | some tasks2 =>
            cases hf : List.find? (fun tk => tk.id == id) s.mockTasks with
            | none => rfl
            | some tk0 =>
                show tasks2.map (fun task => task.id) = _
                exact updateFirstTask_map_id s.mockTasks id _ tasks2 hu
                  (fun y => rfl)
  · intro s id d now e online tk2 h
    simp only [api.updateTask, handleApiError_fst, handleApiError_snd,
      setDemoMode_mockTasks, if_true] at h
    cases hu : updateFirstTask s.mockTasks id
        (fun old =>
          { old with
              title := if (processTaskDescription d now).title == "" then
                  jsTake d 50
                else (processTaskDescription d now).title
              description := d
              label := if (processTaskDescription d now).label == "" then
                  old.label
                else (processTaskDescription d now).label
              due_date := (processTaskDescription d now).due_date
              updated_at := now }) with
    | none =>
        rw [hu] at h
        cases h
    | some tasks2 =>
        rw [hu] at h
        cases hf : List.find? (fun tk => tk.id == id) s.mockTasks with
        | none =>
            rw [hf] at h
            cases h
        | some tk0 =>
            rw [hf] at h
            simp only [Option.map_some'] at h
            cases h
            exact ⟨rfl, rfl⟩
  · intro s id d now e online tk2 h
    simp only [api.updateTask, handleApiError_fst, handleApiError_snd,
      setDemoMode_mockTasks, if_true] at h
    cases hu : updateFirstTask s.mockTasks id
        (fun old =>
          { old with
              title := if (processTaskDescription d now).title == "" then
                  jsTake d 50
                else (processTaskDescription d now).title
              description := d
              label := if (processTaskDescription d now).label == "" then
                  old.label
                else (processTaskDescription d now).label
              due_date := (processTaskDescription d now).due_date
              updated_at := now }) with
    | none =>
        rw [hu] at h
        cases h
    | some tasks2 =>
        rw [hu] at h
        cases hf : List.find? (fun tk => tk.id == id) s.mockTasks with
        | none =>
            rw [hf] at h
            cases h
        | some tk0f =>
            rw [hf] at h
            simp only [Option.map_some'] at h
            obtain ⟨pre, tk0, post, h1, h2, h3, h4, h5⟩ :=
              updateFirstTask_eq s.mockTasks id _ tasks2 hu
            rw [h5] at hf
            injection hf with hf2
            subst hf2
            injection h with h9
            subst h9
            have hstate : (api.updateTask s id d now
                (.err e) online).2.1.mockTasks = tasks2 := by
              simp only [api.updateTask, handleApiError_fst,
                handleApiError_snd, setDemoMode_mockTasks, if_true]
              rw [hu, h5]
              rfl
            exact ⟨pre, tk0, post, h1, h2, h3, by rw [hstate, h4], rfl,
              rfl, rfl, rfl⟩
  · intro s label sk li o oT oL req oS oH id now online
    refine ⟨?_, ?_, ?_, ?_, ?_, rfl⟩
    · simp only [step, api.getTasks]
      split <;> (try split) <;> rfl
    · cases oT with
      | ok tk => rfl
      | err e =>
          simp only [step, api.getTask]
          split <;> rfl
    · cases oL <;> rfl
    · cases oS <;> rfl
    · cases oH with
      | ok r =>
          simp only [step, api.checkHealth]
          split <;> rfl
      | threw e => rfl

/-- Witness for `store_invariants`: the freshly loaded store (one seeded
task, `nextId = 2`) satisfies the invariants, a local create at that
state returns a task with id 2 and the description verbatim, and a
local update of id 1 replaces the stored entry with a task carrying the
new description verbatim. -/
theorem store_invariants_witness :
    ((initialState 0).mockTasks.map (fun task => task.id)).Nodup ∧
    (∃ pre tk0 post,
      (initialState 0).mockTasks = pre ++ tk0 :: post ∧
      (∀ y ∈ pre, y.id ≠ 1) ∧ tk0.id = 1 ∧
      (api.updateTask (initialState 0) 1 "Call the doctor" 5
          (.err { message := "Failed to fetch", name := "TypeError",
                  status := none }) true).2.1.mockTasks =
        pre ++ ({ id := 1, title := "Call the doctor",
                  description := "Call the doctor", label := "health",
                  due_date := none, created_at := 0,
                  updated_at := 5 } : Task) :: post ∧
      ({ id := 1, title := "Call the doctor",
         description := "Call the doctor", label := "health",
         due_date := none, created_at := 0,
         updated_at := 5 } : Task).description = "Call the doctor" ∧
      ({ id := 1, title := "Call the doctor",
         description := "Call the doctor", label := "health",
         due_date := none, created_at := 0,
         updated_at := 5 } : Task).updated_at = 5 ∧
      ({ id := 1, title := "Call the doctor",
         description := "Call the doctor", label := "health",
         due_date := none, created_at := 0,
         updated_at := 5 } : Task).id = tk0.id ∧
      ({ id := 1, title := "Call the doctor",
         description := "Call the doctor", label := "health",
         due_date := none, created_at := 0,
         updated_at := 5 } : Task).created_at = tk0.created_at) ∧
    (∃ tk : Task,
      (api.createTask (initialState 0) "Buy milk tomorrow" 5
          (.err { message := "Failed to fetch", name := "TypeError",
                  status := none }) true).1 = .ok tk ∧
      tk.id = 2 ∧ tk.description = "Buy milk tomorrow") := by
  have h := store_invariants
  refine ⟨(h.1 (initialState 0) 0 (Reachable.init 0)).2.1, ?_, ?_⟩
  · exact h.2.2.2.2.2.1 (initialState 0) 1 "Call the doctor" 5
      { message := "Failed to fetch", name := "TypeError", status := none }
      true
      { id := 1, title := "Call the doctor",
        description := "Call the doctor", label := "health",
        due_date := none, created_at := 0, updated_at := 5 } rfl
  obtain ⟨tk, h1, h2, h3, _⟩ := h.2.2.1 (initialState 0) "Buy milk tomorrow"
    5 { message := "Failed to fetch", name := "TypeError", status := none }
    true
  exact ⟨tk, h1, h2, h3⟩

end TaskGenius
